import Mathlib

/-!
Verification of the Ghostwriter MCP tool-orchestration layer.

The development shallowly embeds the three Python modules of the repository:

* `pipeline.py` — the agent loop (`call_tool`, `should_continue`, `run_agent`):
  argument normalization for the search-family tools, the backward codename
  scan for `create_ghostwriter_project`, the zero-argument override for the
  codename generator, the per-iteration error containment, and the turn budget.
* `main.py` — the MCP tool functions (`search_ghostwriter_clients`,
  `update_report_finding_tool`, `attach_finding_to_report`, ...), which wrap
  the GraphQL layer and convert exceptions into `{"error": ...}` payloads.
* `ghostwriter_api.py` — the GraphQL layer, modelled as an abstract backend
  `GqlRequest → PyVal`; every function records the requests it actually posts,
  so "the data-access capability is never reached" is stated as an empty
  request trace.

Python values that flow through the tools (arguments, tool results, GraphQL
responses) are embedded as the inductive type `PyVal`; dictionaries keep
insertion order, as Python dicts do.
-/

/-- A Python value as it appears in tool arguments and results: `None`, an
`int`, a `str`, a `list`, or a `dict` with string keys in insertion order. -/
inductive PyVal where
  | none
  | int (n : Int)
  | str (s : String)
  | list (xs : List PyVal)
  | dict (kvs : List (String × PyVal))

/-- The single-quote character, written via its code point to keep string
literals free of raw quotes. -/
def squote : String := "\x27"

/-- Python truthiness for the embedded values: `None`, `0`, `""`, `[]` and
`\x7b\x7d` are falsy, everything else is truthy. -/
def pyTruthy : PyVal → Bool
  | PyVal.none => false
  | PyVal.int n => n != 0
  | PyVal.str s => !s.data.isEmpty
  | PyVal.list xs => !xs.isEmpty
  | PyVal.dict kvs => !kvs.isEmpty

/-- Python `a or b`: `a` if truthy, else `b`. -/
def pyOr (a b : PyVal) : PyVal := if pyTruthy a then a else b

/-- `d.get(k, default)` on a dict represented as an association list. -/
def dictGetD (kvs : List (String × PyVal)) (k : String) (d : PyVal) : PyVal :=
  match kvs.lookup k with
  | some v => v
  | Option.none => d

/-- `d[k] = v` on a dict: replaces the value in place if the key exists
(keeping its position, as Python dicts do), else appends the pair. -/
def dictSet : List (String × PyVal) → String → PyVal → List (String × PyVal)
  | [], k, v => [(k, v)]
  | (k0, v0) :: rest, k, v =>
    if k0 == k then (k0, v) :: rest else (k0, v0) :: dictSet rest k v

/-- Python `str.isdigit` restricted to ASCII strings: non-empty and all
characters are decimal digits (the embedding only handles ASCII text). -/
def pyIsDigit (s : String) : Bool := !s.data.isEmpty && s.data.all Char.isDigit

/-- Python `int(s)` on a string of decimal digits. -/
def pyDigitsToInt (s : String) : Int :=
  Int.ofNat (s.data.foldl (fun a c => a * 10 + (c.toNat - 48)) 0)

/-- Python `repr` of a string. Python uses single quotes unless the string
contains a single quote and no double quote, in which case it switches to
double quotes. (Escaping of embedded quotes is not needed by any value in
this development and is omitted.) -/
def pyReprStr (s : String) : String :=
  if s.data.contains (Char.ofNat 39) && !(s.data.contains (Char.ofNat 34)) then
    "\"" ++ s ++ "\""
  else squote ++ s ++ squote

mutual
/-- Python `repr` of an embedded value; on lists and dicts this is also what
`str` returns, which is how `call_tool` stringifies tool results into
`ToolMessage` content. -/
def pyRepr : PyVal → String
  | PyVal.none => "None"
  | PyVal.int n => toString n
  | PyVal.str s => pyReprStr s
  | PyVal.list xs => "[" ++ pyReprList xs ++ "]"
  | PyVal.dict kvs => "\x7b" ++ pyReprDict kvs ++ "\x7d"

/-- Comma-separated `repr` of list elements. -/
def pyReprList : List PyVal → String
  | [] => ""
  | [x] => pyRepr x
  | x :: y :: xs => pyRepr x ++ ", " ++ pyReprList (y :: xs)

/-- Comma-separated `repr` of dict entries. -/
def pyReprDict : List (String × PyVal) → String
  | [] => ""
  | [(k, v)] => pyReprStr k ++ ": " ++ pyRepr v
  | (k, v) :: y :: xs => pyReprStr k ++ ": " ++ pyRepr v ++ ", " ++ pyReprDict (y :: xs)
end

/-- Python `str` of an embedded value: strings unquoted, everything else as
`repr`. -/
def pyStrFn : PyVal → String
  | PyVal.str s => s
  | v => pyRepr v

/-- Python f-string interpolation of an `Optional[str]`: `None` prints as the
four characters `None`. -/
def pyFmtOptStr : Option String → String
  | some s => s
  | Option.none => "None"

/-- A GraphQL request as issued by `ghostwriter_api._post`: the operation
(standing for the query string) and its variables. -/
structure GqlRequest where
  op : String
  vars : List (String × PyVal)

/-- One round trip through `_post`: returns the backend's JSON response and
records the request that was issued. -/
def gqlPost (backend : GqlRequest → PyVal) (op : String)
    (vars : List (String × PyVal)) : PyVal × List GqlRequest :=
  (backend ⟨op, vars⟩, [⟨op, vars⟩])

/-- Python `v[k]` subscription: a value for a present key of a dict, a
`KeyError` for an absent key, a `TypeError` on a non-dict. -/
def pyIndex : PyVal → String → Except String PyVal
  | PyVal.dict kvs, k =>
    match kvs.lookup k with
    | some v => Except.ok v
    | Option.none => Except.error ("KeyError: " ++ squote ++ k ++ squote)
  | _, _ => Except.error "TypeError: value is not subscriptable"

/-- Python `v.get(k, default)`: raises `AttributeError` on non-dicts. -/
def pyGetAttr : PyVal → String → PyVal → Except String PyVal
  | PyVal.dict kvs, k, d => Except.ok (dictGetD kvs k d)
  | _, _, _ => Except.error "AttributeError: get"

/-- Iterating a Python value as a list of records; iterating anything else in
the places this is used leads to a `TypeError` a line later, which the
embedding raises directly. -/
def pyListElems : PyVal → Except String (List PyVal)
  | PyVal.list xs => Except.ok xs
  | _ => Except.error "TypeError: value is not iterable as a list"

/-- A tool call as produced by the reasoning capability (langchain format):
correlation token `id`, tool `name`, raw argument mapping `args`. -/
structure ToolCall where
  id : String
  name : String
  args : List (String × PyVal)

/-- A conversation entry. `ai` carries the assistant text and the requested
tool calls (an `AIMessage` always has a `tool_calls` attribute, possibly the
empty list). `toolMsg` carries the tool result value; the Python
`ToolMessage` stores `str(result)` as its content, recovered here by
`pyStrFn`, together with the originating call's correlation token. -/
inductive Message where
  | human (content : String)
  | ai (content : String) (tool_calls : List ToolCall)
  | toolMsg (result : PyVal) (tool_call_id : String)

/-- The `search_tools` list of `pipeline.call_tool`. -/
def searchToolNames : List String :=
  ["search_ghostwriter_clients", "search_ghostwriter_projects",
   "search_ghostwriter_reports", "search_ghostwriter_findings"]

/-- The names registered in `Pipeline.setup_agent`'s `self.tools` list;
`call_tool` resolves tool names against this catalog with a plain dict
lookup, so an absent name raises `KeyError`. -/
def pipelineToolNames : List String :=
  ["search_ghostwriter_findings", "search_ghostwriter_reports",
   "search_ghostwriter_clients", "search_ghostwriter_projects",
   "get_ghostwriter_report_by_id", "get_ghostwriter_project_by_id",
   "get_ghostwriter_client_by_id", "generate_ghostwriter_codename",
   "create_ghostwriter_client", "create_ghostwriter_project",
   "create_ghostwriter_report", "attach_finding_to_report",
   "list_report_finding", "update_report_finding", "explain_workflow"]

/-- The value the search normalizer works on:
`tool_args.get("search_term") or tool_args.get("__arg1") or
tool_args.get("id")` (Python `or` keeps the first truthy operand, else the
last one; a missing key contributes `None`). -/
def extractSearchValue (args : List (String × PyVal)) : PyVal :=
  pyOr (pyOr (dictGetD args "search_term" PyVal.none)
             (dictGetD args "__arg1" PyVal.none))
       (dictGetD args "id" PyVal.none)

/-- Lines 231-236 of `pipeline.call_tool`: an `int` value or a digit-only
string becomes `\x7b"id": int(value)\x7d`; every other value (including `None`)
becomes `\x7b"search_term": value\x7d`. -/
def normalizeSearchArgs (args : List (String × PyVal)) : List (String × PyVal) :=
  match extractSearchValue args with
  | PyVal.int n => [("id", PyVal.int n)]
  | PyVal.str s =>
    if pyIsDigit s then [("id", PyVal.int (pyDigitsToInt s))]
    else [("search_term", PyVal.str s)]
  | v => [("search_term", v)]

/-- The net effect of the codename scan body on one `ToolMessage` content
(`"codename" in message.content`, `ast.literal_eval`, `"codename" in parsed`,
`parsed["codename"]`, all inside `try/except: pass`): only a content that
parses back to a dict with a top-level `"codename"` key yields a value. A
non-dict content either fails the substring or parse step, or raises on
`parsed["codename"]` inside the `try`, and is skipped either way. -/
def literalEvalCodename : PyVal → Option PyVal
  | PyVal.dict kvs => kvs.lookup "codename"
  | _ => Option.none

/-- Whether a message is a `ToolMessage` from which the scan can recover a
codename. -/
def bearsCodename : Message → Bool
  | Message.toolMsg result _ => (literalEvalCodename result).isSome
  | _ => false

/-- The backward scan of lines 243-254, applied to an already reversed
message list: the first `ToolMessage` whose content yields a codename wins
(`break`); every other message is skipped. -/
def findCodename : List Message → Option PyVal
  | [] => Option.none
  | Message.toolMsg result _ :: rest =>
    match literalEvalCodename result with
    | some v => some v
    | Option.none => findCodename rest
  | _ :: rest => findCodename rest

/-- Lines 225-236: the search-family argument rewrite, applied only to the
four search tools. -/
def applySearchNormalization (toolName : String)
    (args : List (String × PyVal)) : List (String × PyVal) :=
  if searchToolNames.contains toolName then normalizeSearchArgs args else args

/-- Lines 238-254: for `create_ghostwriter_project` without a `codename`
argument, scan the conversation backward and append the first recovered
codename; leave the arguments unchanged when none is found. -/
def applyCodenameRecovery (toolName : String) (messages : List Message)
    (args : List (String × PyVal)) : List (String × PyVal) :=
  if toolName == "create_ghostwriter_project" && (args.lookup "codename").isNone then
    match findCodename messages.reverse with
    | some v => args ++ [("codename", v)]
    | Option.none => args
  else args

/-- Lines 257-258: `generate_ghostwriter_codename` always dispatches with an
empty argument mapping. -/
def applyCodenameOverride (toolName : String)
    (args : List (String × PyVal)) : List (String × PyVal) :=
  if toolName == "generate_ghostwriter_codename" then [] else args

/-- The full argument normalization performed by `call_tool` before
dispatch, in source order. -/
def normalizeToolArgs (toolName : String) (messages : List Message)
    (args : List (String × PyVal)) : List (String × PyVal) :=
  applyCodenameOverride toolName
    (applyCodenameRecovery toolName messages
      (applySearchNormalization toolName args))

/-- The `NameError` text raised by line 266 of `pipeline.py`: the guard reads
`if not MCP_AVAILABLE`, but the name `MCP_AVAILABLE` is bound nowhere in the
module (neither at top level nor in the import fallback), so evaluating it
raises before either branch — in particular before `tool_object.func` could
issue any backend request. -/
def mcpNameError : String :=
  "name " ++ squote ++ "MCP_AVAILABLE" ++ squote ++ " is not defined"

/-- `pipeline.call_tool` on the current state. Returns either the appended
`ToolMessage` together with the list of data-access requests issued during
the call (always empty: the `try` block raises `NameError` on the undefined
`MCP_AVAILABLE` before any tool function runs, and the `except` handler turns
that into an error payload carrying the offending arguments), or the
uncaught exception that escapes `call_tool`: the tool-name lookup
`\x7bt.name: t for t in self.tools\x7d[tool_name]` sits before the `try` block and
raises `KeyError` for an unknown tool. -/
def callTool (messages : List Message) : Except String (Message × List GqlRequest) :=
  match messages.getLast? with
  | some (Message.ai _ (tc :: _)) =>
    if pipelineToolNames.contains tc.name then
      let args := normalizeToolArgs tc.name messages tc.args
      Except.ok (Message.toolMsg
        (PyVal.dict
          [("error", PyVal.str ("Failed to call " ++ tc.name ++ ": " ++ mcpNameError)),
           ("args", PyVal.dict args)])
        tc.id, [])
    else Except.error ("KeyError: " ++ squote ++ tc.name ++ squote)
  | _ => Except.error "IndexError: tool_calls"

/-- `pipeline.should_continue`: `"continue"` when the last message has a
non-empty `tool_calls` attribute, else `"end"`. -/
def should_continue (messages : List Message) : String :=
  match messages.getLast? with
  | some (Message.ai _ (_ :: _)) => "continue"
  | _ => "end"

/-- One response of the reasoning capability: the assistant text and the
requested tool calls. A run of the orchestrator is driven by a script of
such responses, consumed one per `agent` node execution. -/
structure AIResp where
  content : String
  tool_calls : List ToolCall

/-- One event yielded by `app.astream` (the langgraph versions this pipeline
targets emit one event per node execution, keyed by node name, plus a final
`"__end__"` event). -/
inductive StreamEvent where
  | agentEvt (msg : Message)
  | toolEvt (msg : Message)
  | endEvt

/-- The event stream of the compiled graph, driven by the response script:
`agent` appends the next scripted response; `should_continue` routes to the
`tool` node or to `END`; `tool` appends `call_tool`'s message and loops. The
second component is the exception `call_tool` raised out of the stream, if
any (an empty script simply ends the stream). -/
def runGraphEvents : List AIResp → List Message → List StreamEvent × Option String
  | [], _ => ([], Option.none)
  | r :: rest, msgs =>
    let aiMsg := Message.ai r.content r.tool_calls
    let msgs1 := msgs ++ [aiMsg]
    if should_continue msgs1 == "continue" then
      match callTool msgs1 with
      | Except.ok (tmsg, _) =>
        let t := runGraphEvents rest (msgs1 ++ [tmsg])
        (StreamEvent.agentEvt aiMsg :: StreamEvent.toolEvt tmsg :: t.1, t.2)
      | Except.error e => ([StreamEvent.agentEvt aiMsg], some e)
    else ([StreamEvent.agentEvt aiMsg, StreamEvent.endEvt], Option.none)

/-- The body of `run_agent`'s `async for` loop: each consumed event bumps
`turn_count` and the loop `break`s before processing once the count exceeds
the budget. The extraction guard is
`hasattr(last_msg, "content") and not hasattr(last_msg, "tool_calls")`: an
`AIMessage` always has a `tool_calls` attribute (even when the list is
empty), so an `agent` event never updates `final_response`; a `ToolMessage`
has no such attribute, so a `tool` event stores its content `str(result)`;
the `"__end__"` event is explicitly skipped. -/
def consumeEvents (maxTurns : Nat) : List StreamEvent → Nat → String → String
  | [], _, acc => acc
  | e :: rest, count, acc =>
    if maxTurns < count + 1 then acc
    else
      match e with
      | StreamEvent.agentEvt _ => consumeEvents maxTurns rest (count + 1) acc
      | StreamEvent.toolEvt (Message.toolMsg result _) =>
        consumeEvents maxTurns rest (count + 1) (pyStrFn result)
      | StreamEvent.toolEvt _ => consumeEvents maxTurns rest (count + 1) acc
      | StreamEvent.endEvt => consumeEvents maxTurns rest (count + 1) acc

/-- The fixed fallback of `run_agent`, returned when `final_response` is
still empty (Python `final_response or "..."`). -/
def fallbackApology : String :=
  "I apologize, but I couldn\x27t process your request properly."

/-- `final_response or fallback`. -/
def finishResponse (finalResponse : String) : String :=
  if finalResponse.data.isEmpty then fallbackApology else finalResponse

/-- `pipeline.run_agent`: seeds the conversation with the caller's message,
consumes the event stream under the turn budget, and returns the final
response or the fallback. An exception raised by the stream surfaces only if
the loop has not already `break`ed on the budget: the loop consumes at most
`maxTurns + 1` events before breaking, so a raise replacing a later pull is
never observed. -/
def runAgent (maxTurns : Nat) (script : List AIResp) (message : String) :
    Except String String :=
  let st := runGraphEvents script [Message.human message]
  match st.2 with
  | some e =>
    if st.1.length ≤ maxTurns then Except.error e
    else Except.ok (finishResponse (consumeEvents maxTurns st.1 0 ""))
  | Option.none => Except.ok (finishResponse (consumeEvents maxTurns st.1 0 ""))

/-- A Python loop mapping a fallible operation over a list of records: the
first exception raised propagates, otherwise the list of results is
produced. -/
def mapExcept (f : PyVal → Except String PyVal) :
    List PyVal → Except String (List PyVal)
  | [] => Except.ok []
  | x :: xs => do
    let y ← f x
    let ys ← mapExcept f xs
    Except.ok (y :: ys)

/-- Python `client.get(k) or ""` assigned back to `client[k]` — the
fallback-filling step of `ghostwriter_api.search_clients`. -/
def orEmptyStr (v : PyVal) : PyVal := if pyTruthy v then v else PyVal.str ""

/-- One client record after the fallback-filling loop of
`ghostwriter_api.search_clients`: `address`, `note`, `timezone` and
`shortName` are replaced by `value or ""` in that order; a non-dict element
would raise `AttributeError` on `.get`. -/
def processClientRecord : PyVal → Except String PyVal
  | PyVal.dict kvs =>
    let k1 := dictSet kvs "address" (orEmptyStr (dictGetD kvs "address" PyVal.none))
    let k2 := dictSet k1 "note" (orEmptyStr (dictGetD k1 "note" PyVal.none))
    let k3 := dictSet k2 "timezone" (orEmptyStr (dictGetD k2 "timezone" PyVal.none))
    let k4 := dictSet k3 "shortName" (orEmptyStr (dictGetD k3 "shortName" PyVal.none))
    Except.ok (PyVal.dict k4)
  | _ => Except.error "AttributeError: get"

/-- The post-processing of `ghostwriter_api.search_clients`: when
`result.get("data", \x7b\x7d).get("client")` is truthy, each client record gets
its optional fields defaulted in place; otherwise the response is returned
untouched. -/
def searchClientsPost (result : PyVal) : Except String PyVal :=
  match result with
  | PyVal.dict rkvs =>
    match dictGetD rkvs "data" (PyVal.dict []) with
    | PyVal.dict dkvs =>
      let clientsV := dictGetD dkvs "client" PyVal.none
      if pyTruthy clientsV then
        match clientsV with
        | PyVal.list cs => do
          let cs2 ← mapExcept processClientRecord cs
          Except.ok (PyVal.dict (dictSet rkvs "data"
            (PyVal.dict (dictSet dkvs "client" (PyVal.list cs2)))))
        | _ => Except.error "TypeError: iteration over a non-list"
      else Except.ok result
    | _ => Except.error "AttributeError: get"
  | _ => Except.error "AttributeError: get"

/-- `ghostwriter_api.search_clients`: posts the `%term%` ilike query (an
`Optional[str]` argument is interpolated by f-string, so `None` becomes the
literal pattern `%None%`), then fills fallback values. Returns the
(possibly raising) result and the requests issued. -/
def search_clients (backend : GqlRequest → PyVal) (search_term : Option String) :
    Except String PyVal × List GqlRequest :=
  let p := gqlPost backend "search_clients"
    [("term", PyVal.str ("%" ++ pyFmtOptStr search_term ++ "%"))]
  (searchClientsPost p.1, p.2)

/-- The record shape built for each client by `main.search_ghostwriter_clients`:
required subscriptions for `id`, `name`, `codename`, `.get` with `""` default
for the optional fields, plus the workflow note interpolating the id. -/
def shapeClientRecord (c : PyVal) : Except String PyVal := do
  let i ← pyIndex c "id"
  let nm ← pyIndex c "name"
  let cn ← pyIndex c "codename"
  let sn ← pyGetAttr c "shortName" (PyVal.str "")
  let ad ← pyGetAttr c "address" (PyVal.str "")
  let nt ← pyGetAttr c "note" (PyVal.str "")
  Except.ok (PyVal.dict
    [("id", i), ("name", nm), ("codename", cn), ("shortName", sn),
     ("address", ad), ("note", nt),
     ("_workflow_note",
      PyVal.str ("Use id=" ++ pyStrFn i ++ " as clientId for create_ghostwriter_project"))])

/-- `main.search_ghostwriter_clients`: runs the API search, shapes each
record, and converts any exception into an `\x7b"error": ...\x7d` payload
(`try/except` around the whole body). The request trace is returned
alongside. -/
def search_ghostwriter_clients (backend : GqlRequest → PyVal)
    (search_term : Option String) : PyVal × List GqlRequest :=
  let p := search_clients backend search_term
  ((match (do
      let results ← p.1
      let dataV ← pyIndex results "data"
      let clientsV ← pyIndex dataV "client"
      let cs ← pyListElems clientsV
      let recs ← mapExcept shapeClientRecord cs
      Except.ok (PyVal.list recs)) with
    | Except.ok v => v
    | Except.error e => PyVal.dict [("error", PyVal.str e)]),
   p.2)

/-- The `ValueError` message of `ghostwriter_api.update_report_finding`. -/
def updateFindingErr : String :=
  "At least one of replicationSteps or affectedEntities must be provided."

/-- `ghostwriter_api.update_report_finding`: builds the dynamic `_set`
mapping from the two optional fields, raises `ValueError` before posting
anything when both are absent, and otherwise posts the update mutation. -/
def update_report_finding (backend : GqlRequest → PyVal) (findingId : Int)
    (replicationSteps affectedEntities : Option String) :
    Except String PyVal × List GqlRequest :=
  let setFields :=
    (match replicationSteps with
     | some s => [("replication_steps", PyVal.str s)]
     | Option.none => []) ++
    (match affectedEntities with
     | some s => [("affectedEntities", PyVal.str s)]
     | Option.none => [])
  if setFields.isEmpty then (Except.error updateFindingErr, [])
  else
    let p := gqlPost backend "updateFinding"
      [("findingId", PyVal.int findingId), ("_set", PyVal.dict setFields)]
    (Except.ok p.1, p.2)

/-- `main.update_report_finding_tool`: calls the API function and extracts
`result["data"]["update_reportedFinding"]`; any exception (including the
`ValueError` above) becomes an `\x7b"error": ...\x7d` payload. -/
def update_report_finding_tool (backend : GqlRequest → PyVal) (findingId : Int)
    (replicationSteps affectedEntities : Option String) : PyVal × List GqlRequest :=
  let p := update_report_finding backend findingId replicationSteps affectedEntities
  match (do
    let res ← p.1
    let d ← pyIndex res "data"
    pyIndex d "update_reportedFinding") with
  | Except.ok v => (v, p.2)
  | Except.error e => (PyVal.dict [("error", PyVal.str e)], p.2)

/-- `ghostwriter_api.search_findings`: posts the `%term%` ilike query over
finding titles. -/
def search_findings (backend : GqlRequest → PyVal) (search_term : String) :
    PyVal × List GqlRequest :=
  gqlPost backend "search_findings" [("term", PyVal.str ("%" ++ search_term ++ "%"))]

/-- `matches[0]["id"]` of `main.attach_finding_to_report`; indexing a truthy
non-list here raises, which the surrounding `try` turns into an error
payload. -/
def pyFirstId : PyVal → Except String PyVal
  | PyVal.list (m :: _) => pyIndex m "id"
  | PyVal.list [] => Except.error "IndexError: list index out of range"
  | _ => Except.error "TypeError: value is not subscriptable"

/-- Python `int(v)` as applied to the non-string `finding` argument of
`attach_finding_to_report`: an `int` passes through, anything else raises
`TypeError` (digit strings are handled for completeness, though the string
case never reaches this conversion in the source). -/
def pyIntFn : PyVal → Except String PyVal
  | PyVal.int n => Except.ok (PyVal.int n)
  | PyVal.str s =>
    if pyIsDigit s then Except.ok (PyVal.int (pyDigitsToInt s))
    else Except.error "ValueError: invalid literal for int()"
  | _ => Except.error "TypeError: int() argument"

/-- The attach mutation round trip and result shaping at the end of
`main.attach_finding_to_report` (`add_finding_to_report` plus the
`reportedFindingId`/`usedFindingId` result dict); the trace is the single
attach request regardless of how extraction of the response goes. -/
def attachFindingCore (backend : GqlRequest → PyVal) (findingId : PyVal)
    (reportId : Int) : PyVal × List GqlRequest :=
  let p := gqlPost backend "attachFinding"
    [("findingId", findingId), ("reportId", PyVal.int reportId)]
  (match (do
    let d ← pyIndex p.1 "data"
    let a ← pyIndex d "attachFinding"
    pyIndex a "id") with
   | Except.ok rid =>
     PyVal.dict [("reportedFindingId", rid), ("usedFindingId", findingId)]
   | Except.error e => PyVal.dict [("error", PyVal.str e)],
   p.2)

/-- `main.attach_finding_to_report`: a string `finding` is first searched;
no match returns an error naming the title without posting the attach
mutation; otherwise the first match's id is used. A non-string `finding` is
converted with `int(...)` and used directly. All exceptions become
`\x7b"error": ...\x7d` payloads. -/
def attach_finding_to_report (backend : GqlRequest → PyVal) (finding : PyVal)
    (reportId : Int) : PyVal × List GqlRequest :=
  match finding with
  | PyVal.str s =>
    let p := search_findings backend s
    match (do
      let d ← pyIndex p.1 "data"
      pyIndex d "finding") with
    | Except.error e => (PyVal.dict [("error", PyVal.str e)], p.2)
    | Except.ok ms =>
      if !pyTruthy ms then
        (PyVal.dict
          [("error", PyVal.str
            ("No finding found with title like: " ++ squote ++ s ++ squote))],
         p.2)
      else
        match pyFirstId ms with
        | Except.error e => (PyVal.dict [("error", PyVal.str e)], p.2)
        | Except.ok fid =>
          let r := attachFindingCore backend fid reportId
          (r.1, p.2 ++ r.2)
  | _ =>
    match pyIntFn finding with
    | Except.error e => (PyVal.dict [("error", PyVal.str e)], [])
    | Except.ok fid => attachFindingCore backend fid reportId

/-- Looking a key up in an appended association list skips a left part that
does not contain it. -/
theorem lookup_append_of_none (l1 l2 : List (String × PyVal)) (k : String)
    (h : l1.lookup k = Option.none) : (l1 ++ l2).lookup k = l2.lookup k := by
  induction l1 with
  | nil => rfl
  | cons x xs ih =>
    rw [List.cons_append]
    cases x with
    | mk a b =>
      simp only [List.lookup] at h ⊢
      cases hk : (k == a) with
      | true => rw [hk] at h; exact absurd h (by simp)
      | false => rw [hk] at h; exact ih h

/-- An integer search value routes to an id lookup. -/
theorem normalizeSearchArgs_int (args : List (String × PyVal)) (n : Int)
    (h : extractSearchValue args = PyVal.int n) :
    normalizeSearchArgs args = [("id", PyVal.int n)] := by
  unfold normalizeSearchArgs
  rw [h]

/-- A digit-only string search value routes to an id lookup via `int(...)`. -/
theorem normalizeSearchArgs_digits (args : List (String × PyVal)) (s : String)
    (h : extractSearchValue args = PyVal.str s) (hd : pyIsDigit s = true) :
    normalizeSearchArgs args = [("id", PyVal.int (pyDigitsToInt s))] := by
  unfold normalizeSearchArgs
  rw [h]
  simp [hd]

/-- Any other string search value routes to a free-text search. -/
theorem normalizeSearchArgs_nondigit (args : List (String × PyVal)) (s : String)
    (h : extractSearchValue args = PyVal.str s) (hd : pyIsDigit s = false) :
    normalizeSearchArgs args = [("search_term", PyVal.str s)] := by
  unfold normalizeSearchArgs
  rw [h]
  simp [hd]

/-- For the four search tools, the codename-recovery and codename-generator
steps do not apply, so the full normalization is the search rewrite. -/
theorem normalizeToolArgs_eq_search (toolName : String) (messages : List Message)
    (args : List (String × PyVal))
    (h1 : searchToolNames.contains toolName = true)
    (h2 : (toolName == "create_ghostwriter_project") = false)
    (h3 : (toolName == "generate_ghostwriter_codename") = false) :
    normalizeToolArgs toolName messages args = normalizeSearchArgs args := by
  simp only [normalizeToolArgs, applySearchNormalization, applyCodenameRecovery,
    applyCodenameOverride, h1, h2, h3]
  simp

/-- C1: for every search-family tool call (`search_ghostwriter_clients`,
`_projects`, `_reports`, `_findings`), if the value obtained from the alias
keys `search_term`/`__arg1`/`id` is an integer or a string consisting only of
digits, the normalizer rewrites the arguments to exactly
`\x7bid: int(value)\x7d`; for every other non-null string value it rewrites them
to exactly `\x7bsearch_term: value\x7d`. -/
theorem c1_search_arg_disambiguation (toolName : String) (messages : List Message)
    (args : List (String × PyVal)) (h : toolName ∈ searchToolNames) :
    (∀ n : Int, extractSearchValue args = PyVal.int n →
      normalizeToolArgs toolName messages args = [("id", PyVal.int n)]) ∧
    (∀ s : String, extractSearchValue args = PyVal.str s → pyIsDigit s = true →
      normalizeToolArgs toolName messages args = [("id", PyVal.int (pyDigitsToInt s))]) ∧
    (∀ s : String, extractSearchValue args = PyVal.str s → pyIsDigit s = false →
      normalizeToolArgs toolName messages args = [("search_term", PyVal.str s)]) := by
  simp only [searchToolNames, List.mem_cons, List.not_mem_nil, or_false] at h
  have hcon : searchToolNames.contains toolName = true := by
    rcases h with rfl | rfl | rfl | rfl <;> rfl
  have h2 : (toolName == "create_ghostwriter_project") = false := by
    rcases h with rfl | rfl | rfl | rfl <;> rfl
  have h3 : (toolName == "generate_ghostwriter_codename") = false := by
    rcases h with rfl | rfl | rfl | rfl <;> rfl
  refine ⟨fun n hn => ?_, fun s hs hd => ?_, fun s hs hd => ?_⟩
  · rw [normalizeToolArgs_eq_search _ _ _ hcon h2 h3, normalizeSearchArgs_int _ _ hn]
  · rw [normalizeToolArgs_eq_search _ _ _ hcon h2 h3, normalizeSearchArgs_digits _ _ hs hd]
  · rw [normalizeToolArgs_eq_search _ _ _ hcon h2 h3, normalizeSearchArgs_nondigit _ _ hs hd]

/-- Witness for C1 at concrete inputs: a digit string under `search_term`
becomes an id lookup, an integer under `__arg1` becomes an id lookup, and a
plain name becomes a free-text search. -/
theorem c1_search_arg_disambiguation_witness :
    normalizeToolArgs "search_ghostwriter_findings" []
        [("search_term", PyVal.str "123")] = [("id", PyVal.int 123)] ∧
    normalizeToolArgs "search_ghostwriter_clients" []
        [("__arg1", PyVal.int 42)] = [("id", PyVal.int 42)] ∧
    normalizeToolArgs "search_ghostwriter_clients" []
        [("search_term", PyVal.str "Acme Corp")] =
      [("search_term", PyVal.str "Acme Corp")] := by
  refine ⟨?_, ?_, ?_⟩
  · exact (c1_search_arg_disambiguation "search_ghostwriter_findings" []
      [("search_term", PyVal.str "123")] (by decide)).2.1 "123" rfl rfl
  · exact (c1_search_arg_disambiguation "search_ghostwriter_clients" []
      [("__arg1", PyVal.int 42)] (by decide)).1 42 rfl
  · exact (c1_search_arg_disambiguation "search_ghostwriter_clients" []
      [("search_term", PyVal.str "Acme Corp")] (by decide)).2.2 "Acme Corp" rfl rfl

/-- The scan skips any leading block of messages from which no codename can
be recovered. -/
theorem findCodename_append_of_none (l1 l2 : List Message)
    (h : ∀ m ∈ l1, bearsCodename m = false) :
    findCodename (l1 ++ l2) = findCodename l2 := by
  induction l1 with
  | nil => rfl
  | cons m rest ih =>
    have hm := h m (List.mem_cons_self m rest)
    have hrest : ∀ x ∈ rest, bearsCodename x = false :=
      fun x hx => h x (List.mem_cons_of_mem m hx)
    cases m with
    | human c => exact ih hrest
    | ai c tcs => exact ih hrest
    | toolMsg result tid =>
      cases hl : literalEvalCodename result with
      | some v =>
        have hb : bearsCodename (Message.toolMsg result tid) = true := by
          simp [bearsCodename, hl]
        rw [hm] at hb
        exact absurd hb (by simp)
      | none =>
        rw [List.cons_append]
        simp only [findCodename, hl]
        exact ih hrest

/-- If no message recoverable by the scan exists, the scan finds nothing. -/
theorem findCodename_eq_none (l : List Message)
    (h : ∀ m ∈ l, bearsCodename m = false) : findCodename l = Option.none := by
  have h2 := findCodename_append_of_none l [] h
  rw [List.append_nil] at h2
  exact h2

/-- Scanning the reversed history finds the codename of the latest
codename-bearing tool message: everything after it (in forward order)
recovers nothing. -/
theorem findCodename_of_decomp (pre post : List Message) (content : PyVal)
    (tid : String) (v : PyVal)
    (hv : literalEvalCodename content = some v)
    (hpost : ∀ m ∈ post, bearsCodename m = false) :
    findCodename (pre ++ Message.toolMsg content tid :: post).reverse = some v := by
  rw [List.reverse_append, List.reverse_cons, List.append_assoc]
  rw [findCodename_append_of_none post.reverse _
    (fun m hm => hpost m (List.mem_reverse.mp hm))]
  simp only [List.singleton_append, findCodename, hv]

/-- For `create_ghostwriter_project` without a supplied codename, a
successful scan appends the recovered value to the argument mapping. -/
theorem normalizeToolArgs_createProject (messages : List Message)
    (args : List (String × PyVal)) (v : PyVal)
    (hargs : args.lookup "codename" = Option.none)
    (hfound : findCodename messages.reverse = some v) :
    normalizeToolArgs "create_ghostwriter_project" messages args =
      args ++ [("codename", v)] := by
  simp only [normalizeToolArgs, applySearchNormalization, applyCodenameRecovery,
    applyCodenameOverride,
    show searchToolNames.contains "create_ghostwriter_project" = false from rfl,
    show ("create_ghostwriter_project" == "create_ghostwriter_project") = true from rfl,
    show ("create_ghostwriter_project" == "generate_ghostwriter_codename") = false from rfl,
    hargs, hfound]
  simp [hargs]

/-- C2: for a `create_ghostwriter_project` call whose arguments lack
`codename`, when the history scanned backward from the most recent entry
contains a tool-result whose content parses to a mapping with a `codename`
field, the normalized arguments passed to dispatch include `codename` equal
to that field's value from the first such message found. -/
theorem c2_codename_recovery (pre post : List Message) (content : PyVal)
    (tid : String) (v : PyVal) (args : List (String × PyVal))
    (hargs : args.lookup "codename" = Option.none)
    (hv : literalEvalCodename content = some v)
    (hpost : ∀ m ∈ post, bearsCodename m = false) :
    (normalizeToolArgs "create_ghostwriter_project"
        (pre ++ Message.toolMsg content tid :: post) args).lookup "codename" =
      some v := by
  rw [normalizeToolArgs_createProject _ _ _ hargs
    (findCodename_of_decomp pre post content tid v hv hpost)]
  rw [lookup_append_of_none args _ _ hargs]
  rfl

/-- Witness for C2: a codename generated earlier in the conversation
(`\x7b"codename": "RT2024"\x7d`), followed by an unrelated tool result, is
recovered into a `create_ghostwriter_project` call that supplied only
`clientId` and `projectTypeId`. -/
theorem c2_codename_recovery_witness :
    (([("clientId", PyVal.int 123), ("projectTypeId", PyVal.int 2)] :
        List (String × PyVal)).lookup "codename" = Option.none) ∧
    literalEvalCodename (PyVal.dict [("codename", PyVal.str "RT2024")]) =
      some (PyVal.str "RT2024") ∧
    (∀ m ∈ [Message.ai "ok" [],
            Message.toolMsg (PyVal.dict [("id", PyVal.int 5)]) "c2"],
      bearsCodename m = false) ∧
    (normalizeToolArgs "create_ghostwriter_project"
        ([Message.human "hi"] ++
          Message.toolMsg (PyVal.dict [("codename", PyVal.str "RT2024")]) "c1" ::
            [Message.ai "ok" [],
             Message.toolMsg (PyVal.dict [("id", PyVal.int 5)]) "c2"])
        [("clientId", PyVal.int 123), ("projectTypeId", PyVal.int 2)]).lookup
      "codename" = some (PyVal.str "RT2024") := by
  refine ⟨rfl, rfl, by decide, ?_⟩
  exact c2_codename_recovery [Message.human "hi"]
    [Message.ai "ok" [], Message.toolMsg (PyVal.dict [("id", PyVal.int 5)]) "c2"]
    (PyVal.dict [("codename", PyVal.str "RT2024")]) "c1" (PyVal.str "RT2024")
    [("clientId", PyVal.int 123), ("projectTypeId", PyVal.int 2)]
    rfl rfl (by decide)

/-- When the backward scan recovers nothing, the argument mapping of a
`create_ghostwriter_project` call is left unchanged (in particular,
`codename` is not fabricated). -/
theorem normalizeToolArgs_createProject_none (messages : List Message)
    (args : List (String × PyVal))
    (hnone : findCodename messages.reverse = Option.none) :
    normalizeToolArgs "create_ghostwriter_project" messages args = args := by
  simp only [normalizeToolArgs, applySearchNormalization, applyCodenameRecovery,
    applyCodenameOverride,
    show searchToolNames.contains "create_ghostwriter_project" = false from rfl,
    show ("create_ghostwriter_project" == "create_ghostwriter_project") = true from rfl,
    show ("create_ghostwriter_project" == "generate_ghostwriter_codename") = false from rfl,
    hnone]
  cases hn : List.lookup "codename" args with
  | none => simp [hn]
  | some w => simp [hn]

/-- For any state whose last message is an assistant message requesting a
known tool, `call_tool` returns (it does not raise): the `try` block's
`NameError` on the undefined `MCP_AVAILABLE` is caught and converted into an
error payload carrying the normalized arguments, the resulting
`ToolMessage` carries the call's correlation token, and no backend request
is issued. -/
theorem callTool_known (msgs : List Message) (c : String) (tc : ToolCall)
    (rest : List ToolCall) (h : pipelineToolNames.contains tc.name = true) :
    callTool (msgs ++ [Message.ai c (tc :: rest)]) =
      Except.ok (Message.toolMsg
        (PyVal.dict
          [("error", PyVal.str ("Failed to call " ++ tc.name ++ ": " ++ mcpNameError)),
           ("args", PyVal.dict
             (normalizeToolArgs tc.name (msgs ++ [Message.ai c (tc :: rest)]) tc.args))])
        tc.id, []) := by
  unfold callTool
  rw [List.getLast?_concat]
  have hmem : tc.name ∈ pipelineToolNames := by simpa using h
  simp [hmem]

/-- C3: for a `create_ghostwriter_project` call lacking `codename`, when no
prior tool-result in the history carries a codename field, the normalizer
leaves `codename` absent (the mapping is passed through unchanged) and the
dispatch produces an error payload (the `\x7b"error": ...\x7d` dict, which also
echoes the offending arguments) rather than a fabricated codename value or a
successful backend call — the request trace is empty. -/
theorem c3_missing_codename_validation (msgs : List Message)
    (args : List (String × PyVal)) (c cid : String)
    (hargs : args.lookup "codename" = Option.none)
    (hmsgs : ∀ m ∈ msgs, bearsCodename m = false) :
    normalizeToolArgs "create_ghostwriter_project"
        (msgs ++ [Message.ai c [⟨cid, "create_ghostwriter_project", args⟩]]) args =
      args ∧
    (normalizeToolArgs "create_ghostwriter_project"
        (msgs ++ [Message.ai c [⟨cid, "create_ghostwriter_project", args⟩]]) args).lookup
      "codename" = Option.none ∧
    callTool (msgs ++ [Message.ai c [⟨cid, "create_ghostwriter_project", args⟩]]) =
      Except.ok (Message.toolMsg
        (PyVal.dict
          [("error", PyVal.str
            ("Failed to call create_ghostwriter_project: " ++ mcpNameError)),
           ("args", PyVal.dict args)]) cid, []) := by
  have hext : ∀ m ∈ msgs ++ [Message.ai c [⟨cid, "create_ghostwriter_project", args⟩]],
      bearsCodename m = false := by
    intro m hm
    rcases List.mem_append.mp hm with h1 | h2
    · exact hmsgs m h1
    · rw [List.mem_singleton.mp h2]
      rfl
  have hnone := findCodename_eq_none _ (fun m hm => hext m (List.mem_reverse.mp hm))
  have hnorm := normalizeToolArgs_createProject_none _ args hnone
  refine ⟨hnorm, by rw [hnorm]; exact hargs, ?_⟩
  rw [callTool_known msgs c ⟨cid, "create_ghostwriter_project", args⟩ [] rfl]
  rw [hnorm]
  rfl

/-- Witness for C3: only a human message precedes the call, the arguments
carry `clientId` and `projectTypeId` but no `codename`, and dispatch yields
the error payload with an empty request trace. -/
theorem c3_missing_codename_validation_witness :
    (([("clientId", PyVal.int 123), ("projectTypeId", PyVal.int 2)] :
        List (String × PyVal)).lookup "codename" = Option.none) ∧
    (∀ m ∈ [Message.human "hi"], bearsCodename m = false) ∧
    (normalizeToolArgs "create_ghostwriter_project"
        ([Message.human "hi"] ++
          [Message.ai "" [⟨"call_7", "create_ghostwriter_project",
            [("clientId", PyVal.int 123), ("projectTypeId", PyVal.int 2)]⟩]])
        [("clientId", PyVal.int 123), ("projectTypeId", PyVal.int 2)] =
      [("clientId", PyVal.int 123), ("projectTypeId", PyVal.int 2)] ∧
    (normalizeToolArgs "create_ghostwriter_project"
        ([Message.human "hi"] ++
          [Message.ai "" [⟨"call_7", "create_ghostwriter_project",
            [("clientId", PyVal.int 123), ("projectTypeId", PyVal.int 2)]⟩]])
        [("clientId", PyVal.int 123), ("projectTypeId", PyVal.int 2)]).lookup
      "codename" = Option.none ∧
    callTool ([Message.human "hi"] ++
        [Message.ai "" [⟨"call_7", "create_ghostwriter_project",
          [("clientId", PyVal.int 123), ("projectTypeId", PyVal.int 2)]⟩]]) =
      Except.ok (Message.toolMsg
        (PyVal.dict
          [("error", PyVal.str
            ("Failed to call create_ghostwriter_project: " ++ mcpNameError)),
           ("args", PyVal.dict
             [("clientId", PyVal.int 123), ("projectTypeId", PyVal.int 2)])])
        "call_7", [])) := by
  refine ⟨rfl, by decide, ?_⟩
  exact c3_missing_codename_validation [Message.human "hi"]
    [("clientId", PyVal.int 123), ("projectTypeId", PyVal.int 2)] "" "call_7"
    rfl (by decide)

/-- A response script in which the model answers immediately with free text
and zero tool calls. -/
def c4Script : List AIResp := [⟨"Hello! How can I help?", []⟩]

/-- C4 (evidence for the divergence): given a model response with zero tool
calls, `should_continue` does route to `END` in the same iteration and no
tool is dispatched (first two conjuncts), but the run does NOT return the
response text verbatim: the extraction guard
`not hasattr(last_msg, "tool_calls")` is false for every assistant message
(an `AIMessage` always has that attribute), so the text is never captured
and the fixed fallback is returned instead. -/
theorem c4_final_text_not_returned :
    should_continue [Message.human "hi", Message.ai "Hello! How can I help?" []] =
      "end" ∧
    runGraphEvents c4Script [Message.human "hi"] =
      ([StreamEvent.agentEvt (Message.ai "Hello! How can I help?" []),
        StreamEvent.endEvt], Option.none) ∧
    runAgent 10 c4Script "hi" = Except.ok fallbackApology ∧
    fallbackApology ≠ "Hello! How can I help?" := by
  refine ⟨rfl, rfl, rfl, by decide⟩

/-- A tool call to the argumentless workflow explainer. -/
def c5Call : ToolCall := ⟨"c1", "explain_workflow", []⟩

/-- A response script that requests a tool on every turn, so a budget of 2
events is exceeded. -/
def c5Script : List AIResp :=
  [⟨"Working on it...", [c5Call]⟩, ⟨"Working on it...", [c5Call]⟩,
   ⟨"Working on it...", [c5Call]⟩]

/-- The tool-result payload every dispatch produces (the `NameError` on the
undefined `MCP_AVAILABLE`, converted by the handler). -/
def c5Payload : PyVal :=
  PyVal.dict
    [("error", PyVal.str ("Failed to call explain_workflow: " ++ mcpNameError)),
     ("args", PyVal.dict [])]

/-- C5 (evidence for the divergence): with `MAX_TURNS = 2` and a script that
always requests tools, the budget is exceeded, and the run returns the
stringified content of the last processed `ToolMessage` — not the last
observed assistant free-text content ("Working on it...") and not the fixed
fallback, contradicting the claimed budget-exhaustion return value. -/
theorem c5_budget_returns_tool_content :
    runAgent 2 c5Script "hi" = Except.ok (pyStrFn c5Payload) ∧
    pyStrFn c5Payload =
      "\x7b\x27error\x27: \"Failed to call explain_workflow: name \x27MCP_AVAILABLE\x27 is not defined\", \x27args\x27: \x7b\x7d\x7d" ∧
    pyStrFn c5Payload ≠ fallbackApology ∧
    pyStrFn c5Payload ≠ "Working on it..." := by
  refine ⟨rfl, by decide, by decide, by decide⟩

/-- C6 counterexample: a call naming a tool absent from the catalog raises
`KeyError` out of `call_tool` — the name lookup
`\x7bt.name: t for t in self.tools\x7d[tool_name]` precedes the `try` block — so
this per-tool failure is not converted into a tool-result message; it
crosses the loop boundary and aborts the run. -/
theorem c6_unknown_tool_raises :
    callTool [Message.human "hi", Message.ai "" [⟨"c9", "made_up_tool", []⟩]] =
      Except.error ("KeyError: " ++ squote ++ "made_up_tool" ++ squote) := rfl

/-- C6 amended: every failure arising inside the dispatch `try` block is
caught within the iteration and converted into a tool-result message that
carries the originating call's correlation token and whose content is an
error payload including the offending (normalized) arguments; no backend
request is issued. Only the unknown-tool lookup, which sits before the
handler, can raise across the loop boundary. -/
theorem c6_failures_contained (msgs : List Message) (c : String) (tc : ToolCall)
    (rest : List ToolCall) (h : pipelineToolNames.contains tc.name = true) :
    callTool (msgs ++ [Message.ai c (tc :: rest)]) =
      Except.ok (Message.toolMsg
        (PyVal.dict
          [("error", PyVal.str ("Failed to call " ++ tc.name ++ ": " ++ mcpNameError)),
           ("args", PyVal.dict
             (normalizeToolArgs tc.name (msgs ++ [Message.ai c (tc :: rest)]) tc.args))])
        tc.id, []) :=
  callTool_known msgs c tc rest h

/-- Witness for C6 (amended): a `create_ghostwriter_report` call with a
title argument produces a contained error payload echoing the arguments,
tagged with the call's correlation token. -/
theorem c6_failures_contained_witness :
    pipelineToolNames.contains "create_ghostwriter_report" = true ∧
    callTool ([Message.human "hi"] ++
        [Message.ai "" [⟨"c2", "create_ghostwriter_report",
          [("title", PyVal.str "Q4 Pentest")]⟩]]) =
      Except.ok (Message.toolMsg
        (PyVal.dict
          [("error", PyVal.str
            ("Failed to call create_ghostwriter_report: " ++ mcpNameError)),
           ("args", PyVal.dict [("title", PyVal.str "Q4 Pentest")])])
        "c2", []) := by
  refine ⟨rfl, ?_⟩
  exact c6_failures_contained [Message.human "hi"] ""
    ⟨"c2", "create_ghostwriter_report", [("title", PyVal.str "Q4 Pentest")]⟩ [] rfl

/-- C7: invoking the update-finding tool with both `replicationSteps` and
`affectedEntities` unset fails with the validation error (`ValueError`
raised before posting, converted by the tool into an `\x7b"error": ...\x7d`
payload), and the data-access capability is never reached: the request
trace is empty. -/
theorem c7_update_requires_a_field (backend : GqlRequest → PyVal) (findingId : Int) :
    update_report_finding_tool backend findingId Option.none Option.none =
      (PyVal.dict [("error", PyVal.str updateFindingErr)], []) := rfl

/-- A backend whose client search returns an empty result set. -/
def c8Backend : GqlRequest → PyVal :=
  fun _ => PyVal.dict [("data", PyVal.dict [("client", PyVal.list [])])]

/-- C8 counterexample: when the alias keys yield `None`, normalization does
not fail validation: it produces the dispatchable mapping
`\x7bsearch_term: None\x7d`, and dispatching that through the MCP search tool
reaches the data-access capability (one request is posted, with the
f-string pattern `%None%`) and returns a success payload, not an error. -/
theorem c8_none_not_rejected :
    normalizeToolArgs "search_ghostwriter_clients" [] [] =
      [("search_term", PyVal.none)] ∧
    search_ghostwriter_clients c8Backend Option.none =
      (PyVal.list [], [⟨"search_clients", [("term", PyVal.str "%None%")]⟩]) ∧
    (search_ghostwriter_clients c8Backend Option.none).2.length = 1 := by
  refine ⟨rfl, rfl, rfl⟩

/-- C8 amended: the disambiguation rule is a total function, hence
deterministic and total over string/int/None inputs, but for `None` it does
not fail validation: it produces the dispatchable mapping
`\x7bsearch_term: None\x7d`, and the search tool dispatched with
`search_term=None` posts one backend query with the interpolated pattern
`%None%`. -/
theorem c8_none_routes_to_free_text (msgs : List Message)
    (args : List (String × PyVal)) (h : extractSearchValue args = PyVal.none) :
    normalizeToolArgs "search_ghostwriter_clients" msgs args =
      [("search_term", PyVal.none)] ∧
    ∀ backend : GqlRequest → PyVal,
      (search_ghostwriter_clients backend Option.none).2 =
        [⟨"search_clients", [("term", PyVal.str "%None%")]⟩] := by
  constructor
  · rw [normalizeToolArgs_eq_search "search_ghostwriter_clients" msgs args rfl rfl rfl]
    unfold normalizeSearchArgs
    rw [h]
  · intro backend
    rfl

/-- Witness for C8 (amended): an argument mapping whose only alias key holds
`None` extracts to `None` and is routed to `\x7bsearch_term: None\x7d`. -/
theorem c8_none_routes_to_free_text_witness :
    extractSearchValue [("search_term", PyVal.none)] = PyVal.none ∧
    (normalizeToolArgs "search_ghostwriter_clients" []
        [("search_term", PyVal.none)] = [("search_term", PyVal.none)] ∧
     ∀ backend : GqlRequest → PyVal,
       (search_ghostwriter_clients backend Option.none).2 =
         [⟨"search_clients", [("term", PyVal.str "%None%")]⟩]) :=
  ⟨rfl, c8_none_routes_to_free_text [] [("search_term", PyVal.none)] rfl⟩

/-- The client-search request for a term (the `%term%` ilike pattern of
`ghostwriter_api.search_clients`). -/
def clientSearchReq (term : String) : GqlRequest :=
  ⟨"search_clients", [("term", PyVal.str ("%" ++ term ++ "%"))]⟩

/-- A backend client record with `id`, `name` and `codename` populated and
none of the optional fields set (GraphQL returns the requested optional
fields as `null`). -/
def bareClient (n : Int) (nm cn : String) : PyVal :=
  PyVal.dict
    [("id", PyVal.int n), ("name", PyVal.str nm), ("shortName", PyVal.none),
     ("codename", PyVal.str cn), ("address", PyVal.none), ("note", PyVal.none),
     ("timezone", PyVal.none)]

/-- The same record after the API layer's fallback filling: each optional
field replaced in place by the empty string. -/
def processedBareClient (n : Int) (nm cn : String) : PyVal :=
  PyVal.dict
    [("id", PyVal.int n), ("name", PyVal.str nm), ("shortName", PyVal.str ""),
     ("codename", PyVal.str cn), ("address", PyVal.str ""),
     ("note", PyVal.str ""), ("timezone", PyVal.str "")]

/-- The record shape the MCP tool finally returns for such a client. -/
def shapedBareClient (n : Int) (nm cn : String) : PyVal :=
  PyVal.dict
    [("id", PyVal.int n), ("name", PyVal.str nm), ("codename", PyVal.str cn),
     ("shortName", PyVal.str ""), ("address", PyVal.str ""),
     ("note", PyVal.str ""),
     ("_workflow_note", PyVal.str
       ("Use id=" ++ pyStrFn (PyVal.int n) ++
        " as clientId for create_ghostwriter_project"))]

/-- Fallback filling of one bare client record. -/
theorem processClientRecord_bare (n : Int) (nm cn : String) :
    processClientRecord (bareClient n nm cn) =
      Except.ok (processedBareClient n nm cn) := rfl

/-- Fallback filling maps over a whole result list of bare records. -/
theorem mapExcept_process_bare (cs : List (Int × String × String)) :
    mapExcept processClientRecord (cs.map (fun t => bareClient t.1 t.2.1 t.2.2)) =
      Except.ok (cs.map (fun t => processedBareClient t.1 t.2.1 t.2.2)) := by
  induction cs with
  | nil => rfl
  | cons hd tl ih =>
    rw [List.map_cons, mapExcept, processClientRecord_bare]
    rw [show (Except.ok (processedBareClient hd.1 hd.2.1 hd.2.2) :
        Except String PyVal) >>= (fun y => do
          let ys ← mapExcept processClientRecord
            (tl.map (fun t => bareClient t.1 t.2.1 t.2.2))
          Except.ok (y :: ys)) =
      (do
        let ys ← mapExcept processClientRecord
          (tl.map (fun t => bareClient t.1 t.2.1 t.2.2))
        Except.ok (processedBareClient hd.1 hd.2.1 hd.2.2 :: ys)) from rfl]
    rw [ih]
    rfl

/-- Shaping of one processed bare record by the MCP tool. -/
theorem shapeClientRecord_bare (n : Int) (nm cn : String) :
    shapeClientRecord (processedBareClient n nm cn) =
      Except.ok (shapedBareClient n nm cn) := rfl

/-- Binding a ready value in the `Except` monad applies the continuation. -/
theorem ok_bind {α β : Type} (a : α) (f : α → Except String β) :
    (Except.ok a : Except String α) >>= f = f a := rfl

/-- Shaping maps over a whole list of processed bare records. -/
theorem mapExcept_shape_bare (cs : List (Int × String × String)) :
    mapExcept shapeClientRecord
        (cs.map (fun t => processedBareClient t.1 t.2.1 t.2.2)) =
      Except.ok (cs.map (fun t => shapedBareClient t.1 t.2.1 t.2.2)) := by
  induction cs with
  | nil => rfl
  | cons hd tl ih =>
    rw [List.map_cons, mapExcept, shapeClientRecord_bare, ok_bind, ih, ok_bind]
    rfl

/-- The API post-processing on a response wrapping a list of bare records:
the whole client list gets its fallback values filled. -/
theorem searchClientsPost_wrapped (cs : List (Int × String × String)) :
    searchClientsPost (PyVal.dict [("data", PyVal.dict
      [("client", PyVal.list (cs.map (fun t => bareClient t.1 t.2.1 t.2.2)))])]) =
      Except.ok (PyVal.dict [("data", PyVal.dict
        [("client",
          PyVal.list (cs.map (fun t => processedBareClient t.1 t.2.1 t.2.2)))])]) := by
  cases cs with
  | nil => rfl
  | cons hd tl =>
    show (mapExcept processClientRecord
        ((hd :: tl).map (fun t => bareClient t.1 t.2.1 t.2.2)) >>=
      fun cs2 => Except.ok (PyVal.dict [("data", PyVal.dict
        [("client", PyVal.list cs2)])])) =
      Except.ok (PyVal.dict [("data", PyVal.dict
        [("client", PyVal.list
          ((hd :: tl).map (fun t => processedBareClient t.1 t.2.1 t.2.2)))])])
    rw [mapExcept_process_bare (hd :: tl), ok_bind]

/-- C9: every client record whose backend record has no optional fields set
comes back from `search_ghostwriter_clients` with `address`, `note` and
`shortName` equal to the empty string and `id`/`name`/`codename` populated
from the backend record; a backend holding exactly one matching record
yields exactly one such shaped record, via exactly one search request. -/
theorem c9_client_defaults (backend : GqlRequest → PyVal) (term : String)
    (cs : List (Int × String × String))
    (hb : backend (clientSearchReq term) =
      PyVal.dict [("data", PyVal.dict
        [("client", PyVal.list (cs.map (fun t => bareClient t.1 t.2.1 t.2.2)))])]) :
    search_ghostwriter_clients backend (some term) =
      (PyVal.list (cs.map (fun t => shapedBareClient t.1 t.2.1 t.2.2)),
       [clientSearchReq term]) := by
  show (match searchClientsPost (backend (clientSearchReq term)) >>=
      (fun results => do
        let dataV ← pyIndex results "data"
        let clientsV ← pyIndex dataV "client"
        let cls ← pyListElems clientsV
        let recs ← mapExcept shapeClientRecord cls
        Except.ok (PyVal.list recs)) with
    | Except.ok v => v
    | Except.error e => PyVal.dict [("error", PyVal.str e)],
    [clientSearchReq term]) =
    (PyVal.list (cs.map (fun t => shapedBareClient t.1 t.2.1 t.2.2)),
     [clientSearchReq term])
  rw [hb, searchClientsPost_wrapped cs]
  show (match mapExcept shapeClientRecord
      (cs.map (fun t => processedBareClient t.1 t.2.1 t.2.2)) >>=
      (fun recs => Except.ok (PyVal.list recs)) with
    | Except.ok v => v
    | Except.error e => PyVal.dict [("error", PyVal.str e)],
    [clientSearchReq term]) =
    (PyVal.list (cs.map (fun t => shapedBareClient t.1 t.2.1 t.2.2)),
     [clientSearchReq term])
  rw [mapExcept_shape_bare cs, ok_bind]

/-- The backend for the C9 witness: exactly one matching client named
"Acme Corp" with no optional fields set. -/
def c9AcmeBackend : GqlRequest → PyVal :=
  fun _ => PyVal.dict [("data", PyVal.dict
    [("client", PyVal.list [bareClient 7 "Acme Corp" "ACME2024"])])]

/-- Witness for C9: searching "Acme" against that backend yields exactly one
record with `address`, `note`, `shortName` equal to `""` and `id`, `name`,
`codename` from the backend record. -/
theorem c9_client_defaults_witness :
    c9AcmeBackend (clientSearchReq "Acme") =
      PyVal.dict [("data", PyVal.dict
        [("client", PyVal.list
          ([((7 : Int), "Acme Corp", "ACME2024")].map
            (fun t => bareClient t.1 t.2.1 t.2.2)))])] ∧
    search_ghostwriter_clients c9AcmeBackend (some "Acme") =
      (PyVal.list [shapedBareClient 7 "Acme Corp" "ACME2024"],
       [clientSearchReq "Acme"]) :=
  ⟨rfl, c9_client_defaults c9AcmeBackend "Acme"
    [((7 : Int), "Acme Corp", "ACME2024")] rfl⟩

/-- The finding-search request for a title term. -/
def findingSearchReq (term : String) : GqlRequest :=
  ⟨"search_findings", [("term", PyVal.str ("%" ++ term ++ "%"))]⟩

/-- The attach mutation request. -/
def attachReq (findingId : PyVal) (reportId : Int) : GqlRequest :=
  ⟨"attachFinding", [("findingId", findingId), ("reportId", PyVal.int reportId)]⟩

/-- C10: when the `finding` argument is a string, the tool first searches
findings by it; if the search yields no matches it returns an error payload
naming the unmatched title and never posts the attach mutation (the trace is
the search request alone); if there are matches, the attach mutation is
posted with the id of the first match; a non-string `finding` is converted
to an integer id and used directly (no search request). -/
theorem c10_attach_by_title (backend : GqlRequest → PyVal) (s : String)
    (reportId : Int) :
    (backend (findingSearchReq s) =
        PyVal.dict [("data", PyVal.dict [("finding", PyVal.list [])])] →
      attach_finding_to_report backend (PyVal.str s) reportId =
        (PyVal.dict [("error", PyVal.str
          ("No finding found with title like: " ++ squote ++ s ++ squote))],
         [findingSearchReq s])) ∧
    (∀ (k : PyVal) (kvs : List (String × PyVal)) (ms : List PyVal),
      backend (findingSearchReq s) =
        PyVal.dict [("data", PyVal.dict
          [("finding", PyVal.list (PyVal.dict (("id", k) :: kvs) :: ms))])] →
      (attach_finding_to_report backend (PyVal.str s) reportId).2 =
        [findingSearchReq s, attachReq k reportId]) ∧
    (∀ n : Int,
      (attach_finding_to_report backend (PyVal.int n) reportId).2 =
        [attachReq (PyVal.int n) reportId]) := by
  refine ⟨fun hb => ?_, fun k kvs ms hb => ?_, fun n => rfl⟩
  · have hb2 : backend ⟨"search_findings",
        [("term", PyVal.str ("%" ++ s ++ "%"))]⟩ =
        PyVal.dict [("data", PyVal.dict [("finding", PyVal.list [])])] := hb
    simp only [attach_finding_to_report, search_findings, gqlPost]
    rw [hb2]
    rfl
  · have hb2 : backend ⟨"search_findings",
        [("term", PyVal.str ("%" ++ s ++ "%"))]⟩ =
        PyVal.dict [("data", PyVal.dict
          [("finding", PyVal.list (PyVal.dict (("id", k) :: kvs) :: ms))])] := hb
    simp only [attach_finding_to_report, search_findings, gqlPost]
    rw [hb2]
    rfl

/-- A backend whose finding search returns no matches. -/
def c10EmptyBackend : GqlRequest → PyVal :=
  fun _ => PyVal.dict [("data", PyVal.dict [("finding", PyVal.list [])])]

/-- A backend whose finding search returns one match with id 33. -/
def c10HitBackend : GqlRequest → PyVal :=
  fun _ => PyVal.dict [("data", PyVal.dict [("finding", PyVal.list
    [PyVal.dict [("id", PyVal.int 33), ("title", PyVal.str "SQL Injection")]])])]

/-- Witness for C10: an unmatched title returns the naming error with only
the search request posted; a matched title posts the attach mutation with
the first match's id 33; an integer finding argument attaches directly. -/
theorem c10_attach_by_title_witness :
    attach_finding_to_report c10EmptyBackend (PyVal.str "XSS") 9 =
      (PyVal.dict [("error", PyVal.str
        ("No finding found with title like: " ++ squote ++ "XSS" ++ squote))],
       [findingSearchReq "XSS"]) ∧
    (attach_finding_to_report c10HitBackend (PyVal.str "SQL Injection") 9).2 =
      [findingSearchReq "SQL Injection", attachReq (PyVal.int 33) 9] ∧
    (attach_finding_to_report c10EmptyBackend (PyVal.int 5) 9).2 =
      [attachReq (PyVal.int 5) 9] := by
  refine ⟨?_, ?_, ?_⟩
  · exact (c10_attach_by_title c10EmptyBackend "XSS" 9).1 rfl
  · exact (c10_attach_by_title c10HitBackend "SQL Injection" 9).2.1 (PyVal.int 33)
      [("title", PyVal.str "SQL Injection")] [] rfl
  · exact (c10_attach_by_title c10EmptyBackend "unused" 9).2.2 5
